import Mathlib

/-!
# Verification of the Unicorn-Films generation core

A shallow embedding of the prompt-composition, request-building,
generation-lifecycle and state-store logic of the Unicorn-Films studio
application (src/services/geminiService.ts, src/components/PromptForm.tsx,
src/App.tsx), together with theorems settling the specification claims.

JavaScript strings become `String`, nullable values become `Option`,
JS objects become structures, and the backend is an explicit record of
the responses it produces.  `JSON.parse` (a host builtin used by the
source) is modelled by an executable recursive-descent parser over the
JSON grammar; a parse failure (an exception in JS) is `none`.
-/

namespace UnicornFilms

/-- A parsed JSON value, as produced by the host's JSON.parse.
Numbers are kept as their source lexeme: none of the verified code
inspects numeric values, only structure and strings. -/
inductive Json where
  | null
  | bool (b : Bool)
  | num (lexeme : String)
  | str (s : String)
  | arr (elems : List Json)
  | obj (fields : List (String × Json))
deriving Repr

/-- JSON whitespace. -/
def isJsonWs (c : Char) : Bool :=
  c = ' ' || c = '\n' || c = '\t' || c = '\r'

/-- Drop leading JSON whitespace. -/
def skipWs : List Char → List Char
  | [] => []
  | c :: cs => if isJsonWs c then skipWs cs else c :: cs

/-- If `pat` is a leading pattern of `s`, return the remainder of `s`. -/
def dropLeading : List Char → List Char → Option (List Char)
  | [], s => some s
  | _ :: _, [] => none
  | p :: ps, c :: cs => if p = c then dropLeading ps cs else none

/-- Value of a hexadecimal digit. -/
def hexDigitVal (c : Char) : Option Nat :=
  if '0' ≤ c ∧ c ≤ '9' then some (c.toNat - '0'.toNat)
  else if 'a' ≤ c ∧ c ≤ 'f' then some (c.toNat - 'a'.toNat + 10)
  else if 'A' ≤ c ∧ c ≤ 'F' then some (c.toNat - 'A'.toNat + 10)
  else none

/-- Single-character JSON string escapes. -/
def escapeChar (c : Char) : Option Char :=
  if c = '"' then some '"'
  else if c = '\\' then some '\\'
  else if c = '/' then some '/'
  else if c = 'b' then some (Char.ofNat 8)
  else if c = 'f' then some (Char.ofNat 12)
  else if c = 'n' then some '\n'
  else if c = 'r' then some '\r'
  else if c = 't' then some '\t'
  else none

/-- Parse the body of a JSON string after the opening quote, returning the
decoded characters and the remainder after the closing quote. -/
def parseStringBody : Nat → List Char → Option (List Char × List Char)
  | 0, _ => none
  | _, [] => none
  | fuel + 1, c :: cs =>
    if c = '"' then some ([], cs)
    else if c = '\\' then
      match cs with
      | 'u' :: h1 :: h2 :: h3 :: h4 :: cs2 =>
        match hexDigitVal h1, hexDigitVal h2, hexDigitVal h3, hexDigitVal h4 with
        | some a, some b, some c2, some d =>
          match parseStringBody fuel cs2 with
          | some (r, rem) => some (Char.ofNat (((a * 16 + b) * 16 + c2) * 16 + d) :: r, rem)
          | none => none
        | _, _, _, _ => none
      | e :: cs2 =>
        match escapeChar e with
        | some ec =>
          match parseStringBody fuel cs2 with
          | some (r, rem) => some (ec :: r, rem)
          | none => none
        | none => none
      | [] => none
    else
      match parseStringBody fuel cs with
      | some (r, rem) => some (c :: r, rem)
      | none => none

/-- Take a maximal run of decimal digits. -/
def takeDigits : List Char → List Char × List Char
  | [] => ([], [])
  | c :: cs =>
    if c.isDigit then
      let p := takeDigits cs
      (c :: p.1, p.2)
    else ([], c :: cs)

/-- Parse the exponent tail of a JSON number (after the `e`/`E`). -/
def parseExpTail (r : List Char) : Option (List Char × List Char) :=
  let signed : List Char × List Char :=
    match r with
    | '+' :: rest => (['e', '+'], rest)
    | '-' :: rest => (['e', '-'], rest)
    | _ => (['e'], r)
  match takeDigits signed.2 with
  | ([], _) => none
  | (ds, r2) => some (signed.1 ++ ds, r2)

/-- Lex a JSON number, returning its lexeme and the remainder. -/
def parseNumberLex (s : List Char) : Option (List Char × List Char) :=
  let signed : List Char × List Char :=
    match s with
    | '-' :: rest => (['-'], rest)
    | _ => ([], s)
  match takeDigits signed.2 with
  | ([], _) => none
  | (ds, s2) =>
    let fracRes : Option (List Char × List Char) :=
      match s2 with
      | '.' :: r =>
        match takeDigits r with
        | ([], _) => none
        | (fs, s3) => some ('.' :: fs, s3)
      | _ => some ([], s2)
    match fracRes with
    | none => none
    | some (fpart, s3) =>
      let expRes : Option (List Char × List Char) :=
        match s3 with
        | 'e' :: r => parseExpTail r
        | 'E' :: r => parseExpTail r
        | _ => some ([], s3)
      match expRes with
      | none => none
      | some (epart, s4) => some (signed.1 ++ ds ++ fpart ++ epart, s4)

mutual

/-- Parse one JSON value (fueled recursive descent). -/
def parseValue : Nat → List Char → Option (Json × List Char)
  | 0, _ => none
  | fuel + 1, s =>
    match skipWs s with
    | [] => none
    | c :: cs =>
      if c = '"' then
        match parseStringBody (cs.length + 1) cs with
        | some (chars, rem) => some (Json.str (String.mk chars), rem)
        | none => none
      else if c = '{' then
        match skipWs cs with
        | '}' :: rem => some (Json.obj [], rem)
        | cs2 =>
          match parseMembers fuel cs2 with
          | some (fs, rem) => some (Json.obj fs, rem)
          | none => none
      else if c = '[' then
        match skipWs cs with
        | ']' :: rem => some (Json.arr [], rem)
        | cs2 =>
          match parseElems fuel cs2 with
          | some (xs, rem) => some (Json.arr xs, rem)
          | none => none
      else if c = 't' then
        match dropLeading ['r', 'u', 'e'] cs with
        | some rem => some (Json.bool true, rem)
        | none => none
      else if c = 'f' then
        match dropLeading ['a', 'l', 's', 'e'] cs with
        | some rem => some (Json.bool false, rem)
        | none => none
      else if c = 'n' then
        match dropLeading ['u', 'l', 'l'] cs with
        | some rem => some (Json.null, rem)
        | none => none
      else if c = '-' ∨ c.isDigit then
        match parseNumberLex (c :: cs) with
        | some (lex, rem) => some (Json.num (String.mk lex), rem)
        | none => none
      else none

/-- Parse the members of a JSON object after `{` (at least one member). -/
def parseMembers : Nat → List Char → Option (List (String × Json) × List Char)
  | 0, _ => none
  | fuel + 1, s =>
    match skipWs s with
    | '"' :: cs =>
      match parseStringBody (cs.length + 1) cs with
      | some (key, rem1) =>
        match skipWs rem1 with
        | ':' :: rem2 =>
          match parseValue fuel rem2 with
          | some (v, rem3) =>
            match skipWs rem3 with
            | ',' :: rem4 =>
              match parseMembers fuel rem4 with
              | some (fs, rem5) => some ((String.mk key, v) :: fs, rem5)
              | none => none
            | '}' :: rem4 => some ([(String.mk key, v)], rem4)
            | _ => none
          | none => none
        | _ => none
      | none => none
    | _ => none

/-- Parse the elements of a JSON array after `[` (at least one element). -/
def parseElems : Nat → List Char → Option (List Json × List Char)
  | 0, _ => none
  | fuel + 1, s =>
    match parseValue fuel s with
    | some (v, rem) =>
      match skipWs rem with
      | ',' :: rem2 =>
        match parseElems fuel rem2 with
        | some (xs, rem3) => some (v :: xs, rem3)
        | none => none
      | ']' :: rem2 => some ([v], rem2)
      | _ => none
    | none => none

end

/-- Model of the host's JSON.parse: `none` models a thrown SyntaxError. -/
def Json.parse (s : String) : Option Json :=
  match parseValue (4 * s.data.length + 4) s.data with
  | some (j, rem) => if (skipWs rem).isEmpty then some j else none
  | none => none

/-- Does a JSON object carry the given key? -/
def Json.hasField (j : Json) (key : String) : Bool :=
  match j with
  | Json.obj fields => fields.any fun f => f.1 = key
  | _ => false

/-- Look up a key in a JSON object (first occurrence). -/
def Json.getField (j : Json) (key : String) : Option Json :=
  match j with
  | Json.obj fields =>
    match fields.find? (fun f => f.1 = key) with
    | some f => some f.2
    | none => none
  | _ => none

/-- JS truthiness-based defaulting `response.text || s!(open-brace close-brace)`:
an absent (`none`) or empty response text falls back to the two-character
object literal. -/
def respTextOrBraces (responseText : Option String) : String :=
  match responseText with
  | none => "{}"
  | some s => if s = "" then "{}" else s

/-- Fueled replacement of every occurrence of a pattern, modelling JS
String.prototype.replace with a global regex of a literal pattern. -/
def replaceAllAux (pat rep : List Char) : Nat → List Char → List Char
  | _, [] => []
  | 0, s => s
  | fuel + 1, c :: cs =>
    match dropLeading pat (c :: cs) with
    | some rest => rep ++ replaceAllAux pat rep fuel rest
    | none => c :: replaceAllAux pat rep fuel cs

/-- Replace all occurrences of `pat` in `s` by `rep`. -/
def replaceAll (s pat rep : String) : String :=
  String.mk (replaceAllAux pat.data rep.data s.data.length s.data)

/-- Markdown-fence cleanup applied by chatWithDirector before parsing. -/
def cleanResponse (responseText : Option String) : String :=
  replaceAll (replaceAll (respTextOrBraces responseText) "```json" "") "```" ""

/-- The hard-coded fallback action returned by chatWithDirector when the
backend response fails to parse. -/
def directorFallback : Json :=
  Json.obj
    [("type", Json.str "CHAT_RESPONSE"),
     ("payload", Json.obj [("text", Json.str "I'm having trouble processing that request right now.")])]

/-- Response handling of `chatWithDirector` (src/services/geminiService.ts):
clean markdown fences from the response text, JSON.parse it, and on a parse
failure return the fallback chat-response action.  The backend call itself is
abstracted by its produced response text; the function is total, modelling
that the try/catch lets no exception escape. -/
def chatWithDirector (responseText : Option String) : Json :=
  match Json.parse (cleanResponse responseText) with
  | some j => j
  | none => directorFallback

/-- Whether a JSON value is a well-formed DirectorAction: a tagged object
whose tag is one of the four action kinds, carrying a payload. -/
def isDirectorAction (j : Json) : Bool :=
  (match Json.getField j "type" with
   | some (Json.str t) =>
     t = "GENERATE_ASSET" || t = "UPDATE_PROMPT" || t = "CHAT_RESPONSE" || t = "SWITCH_VIEW"
   | _ => false)
  && j.hasField "payload"

/-- The hard-coded fallback score metadata of `generateScoreMetadata`,
as a JSON object (the TS object literal in the catch branch). -/
def scoreFallbackJson (mood : String) : Json :=
  Json.obj
    [("title", Json.str "Untitled Score"),
     ("description", Json.str mood),
     ("bpm", Json.str "120"),
     ("instruments", Json.arr [Json.str "Synth", Json.str "Strings"])]

/-- Response handling of `generateScoreMetadata` (src/services/geminiService.ts):
JSON.parse the response text (defaulting an absent/empty text to the empty
object literal), returning the fallback metadata only when the parse throws. -/
def generateScoreMetadata (mood : String) (responseText : Option String) : Json :=
  match Json.parse (respTextOrBraces responseText) with
  | some j => j
  | none => scoreFallbackJson mood

/-- A storyboard item as consumed by generateStoryboardDescription:
the asset prompt, the free-text note, and the canvas coordinates. -/
structure BoardItemDesc where
  prompt : String
  note : String
  x : Int
  y : Int
deriving Repr, DecidableEq

/-- The per-item description of `generateStoryboardDescription`
(src/services/geminiService.ts): bucket the coordinates into a horizontal
and a depth zone and build the location phrase. -/
def describeStoryboardItem (i : BoardItemDesc) : String :=
  let hPos := if i.x < 150 then "on the left" else if i.x > 300 then "on the right" else "in the center"
  let vPos := if i.y < 150 then "in the background/top" else "in the foreground/bottom"
  i.prompt ++ " (" ++ i.note ++ ") located " ++ hPos ++ " and " ++ vPos

/-- The mapped item descriptions of `generateStoryboardDescription`. -/
def describeStoryboardItems (items : List BoardItemDesc) : List String :=
  items.map describeStoryboardItem

/-- The prompt-relevant part of a FilmStyle: its injection fragment. -/
structure FilmStyle where
  promptInjection : String
deriving Repr, DecidableEq

/-- The prompt-relevant part of an Asset: its id and originating prompt. -/
structure Asset where
  id : String
  prompt : String
deriving Repr, DecidableEq

/-- ContinuityProfile (src/types): the locked asset ids and the lighting lock. -/
structure ContinuityProfile where
  activeAssetIds : List String
  lightingLock : Option String
deriving Repr, DecidableEq

/-- The prompt composition of `handleSubmit` (src/components/PromptForm.tsx):
style injection, then textual continuity injection for the locked assets,
then the lighting lock.  A JS-falsy lighting lock (absent or the empty
string) is skipped. -/
def composeFinalPrompt (prompt : String) (selectedStyle : Option FilmStyle)
    (assets : List Asset) (continuity : ContinuityProfile) : String :=
  let fp1 :=
    match selectedStyle with
    | some st => st.promptInjection ++ " " ++ prompt
    | none => prompt
  let lockedAssets := assets.filter fun a => continuity.activeAssetIds.contains a.id
  let fp2 :=
    if 0 < lockedAssets.length then
      fp1 ++ ". " ++ String.intercalate ". " (lockedAssets.map fun a => "Character Reference: " ++ a.prompt) ++ "."
    else fp1
  match continuity.lightingLock with
  | some l => if l = "" then fp2 else fp2 ++ ". Lighting: " ++ l ++ "."
  | none => fp2

/-- The style fragment contributed ahead of the user text (spec wording,
for comparison with the source composition). -/
def styleFragment : Option FilmStyle → String
  | some st => st.promptInjection ++ " "
  | none => ""

/-- The continuity sentences contributed after the user text (spec wording,
for comparison with the source composition). -/
def assetsFragment (assets : List Asset) (continuity : ContinuityProfile) : String :=
  let lockedAssets := assets.filter fun a => continuity.activeAssetIds.contains a.id
  if 0 < lockedAssets.length then
    ". " ++ String.intercalate ". " (lockedAssets.map fun a => "Character Reference: " ++ a.prompt) ++ "."
  else ""

/-- The lighting sentence contributed at the end (spec wording, for
comparison with the source composition). -/
def lightingFragment (continuity : ContinuityProfile) : String :=
  match continuity.lightingLock with
  | some l => if l = "" then "" else ". Lighting: " ++ l ++ "."
  | none => ""

/-- An uploaded image as passed around by the form: its base64 payload and
its MIME type (file.type). -/
structure ImageFile where
  base64 : String
  mimeType : String
deriving Repr, DecidableEq

/-- The backend video-reference object (`Video`): it optionally carries the
result URI of a generated clip. -/
structure VideoRef where
  uri : Option String
deriving Repr, DecidableEq

/-- A long-running generateVideos operation as seen by the poll loop:
its done flag and (when present) the first generated video of its response. -/
structure Operation where
  done : Bool
  video : Option VideoRef
deriving Repr, DecidableEq

/-- One reference-image entry of a references-to-video request. -/
structure ReferenceImagePayload where
  imageBytes : String
  mimeType : String
  referenceType : String
deriving Repr, DecidableEq

/-- An uploaded video file (base64 payload and MIME type). -/
structure VideoFile where
  base64 : String
  mimeType : String
deriving Repr, DecidableEq

/-- GenerateVideoParams (src/types): the fully resolved request description
handed from the form to generateVideo.  The model, aspect-ratio and
resolution selections are the strings of the corresponding enums;
`aspect` models the aspect-ratio selection. -/
structure GenerateVideoParams where
  prompt : String
  model : String
  aspect : String
  resolution : String
  mode : String
  startFrame : Option ImageFile
  endFrame : Option ImageFile
  referenceImages : List ImageFile
  inputVideo : Option VideoFile
  inputVideoObject : Option VideoRef
  isLooping : Bool
deriving Repr, DecidableEq

/-- The generateVideos request payload assembled by one of the three
branches of `generateVideo` (src/services/geminiService.ts).  Absent
optional fields are `none`; `aspect` models the aspect-ratio config field. -/
structure GenerateVideosRequest where
  model : String
  prompt : String
  image : Option ImageFile
  video : Option VideoRef
  referenceImages : Option (List ReferenceImagePayload)
  numberOfVideos : Nat
  resolution : Option String
  aspect : Option String
deriving Repr, DecidableEq

/-- The branch dispatch of `generateVideo`: build the single generateVideos
request payload for the given params.  Mirrors the source's three branches:
Extend Video (with an input video object), References to Video (with at
least one reference image), and the standard text/image-to-video fallback
(the user's model defaulting to the fast model when falsy). -/
def buildRequest (params : GenerateVideoParams) : GenerateVideosRequest :=
  if params.mode = "Extend Video" ∧ params.inputVideoObject.isSome then
    { model := "veo-3.1-generate-preview"
      prompt := if params.prompt = "" then "Continue the video" else params.prompt
      image := none
      video := params.inputVideoObject
      referenceImages := none
      numberOfVideos := 1
      resolution := some "720p"
      aspect := some params.aspect }
  else if params.mode = "References to Video" ∧ 0 < params.referenceImages.length then
    { model := "veo-3.1-generate-preview"
      prompt := params.prompt
      image := none
      video := none
      referenceImages := some (params.referenceImages.map fun img =>
        { imageBytes := img.base64, mimeType := img.mimeType, referenceType := "ASSET" })
      numberOfVideos := 1
      resolution := some "720p"
      aspect := some "16:9" }
  else
    { model := if params.model = "" then "veo-3.1-fast-generate-preview" else params.model
      prompt := params.prompt
      image := params.startFrame
      video := none
      referenceImages := none
      numberOfVideos := 1
      resolution := some params.resolution
      aspect := some params.aspect }

/-- The mock backend of one submission: the operation returned by
generateVideos, the successive operations returned by getVideosOperation,
and the media fetch (`none` models a network failure). -/
structure Backend where
  initial : Operation
  polls : List Operation
  fetch : String → Option String

/-- The errors `generateVideo` can throw: the hard empty-result error
(the thrown "No video URI returned") and transport failures of the
media fetch. -/
inductive GenError where
  | noVideoUri
  | transport (msg : String)
deriving Repr, DecidableEq

/-- The outcome of an async call: it diverges (the poll loop never sees a
done operation), throws, or returns. -/
inductive Outcome (α : Type) where
  | diverges
  | throws (e : GenError)
  | returns (a : α)
deriving Repr, DecidableEq

/-- The value produced by a successful generateVideo: the object URL, the
fetched payload, and the backend video reference of the operation response. -/
structure GenResult where
  objectUrl : String
  blob : String
  video : Option VideoRef
deriving Repr, DecidableEq

/-- Model of URL.createObjectURL on a fetched payload. -/
def createObjectURL (blob : String) : String := "blob:" ++ blob

/-- The poll loop of `generateVideo`: while the operation is not done,
fetch its status again; returns the final operation and the number of
getVideosOperation status checks, or `none` when the provided responses
are exhausted before a done operation (the loop would poll forever). -/
def pollLoop : Operation → List Operation → Option (Operation × Nat)
  | op, polls =>
    if op.done then some (op, 0)
    else
      match polls with
      | [] => none
      | p :: ps =>
        match pollLoop p ps with
        | some (f, n) => some (f, n + 1)
        | none => none

/-- One scheduling event of the poll loop: the fixed sleep before each
status check, or a status check itself. -/
inductive PollEvent where
  | sleep (ms : Nat)
  | check
deriving Repr, DecidableEq

/-- The event trace of the poll loop: each iteration sleeps the full
5000 ms interval and then performs one status check. -/
def pollTrace : Operation → List Operation → Option (List PollEvent)
  | op, polls =>
    if op.done then some []
    else
      match polls with
      | [] => none
      | p :: ps =>
        match pollTrace p ps with
        | some t => some (PollEvent.sleep 5000 :: PollEvent.check :: t)
        | none => none

/-- The lifecycle tail of `generateVideo`: poll to completion, extract the
result video URI — throwing the empty-result error when it is JS-falsy,
that is absent or the empty string — and fetch the media (throwing a
transport error when the fetch fails). -/
def runGeneration (backend : Backend) : Outcome GenResult :=
  match pollLoop backend.initial backend.polls with
  | none => Outcome.diverges
  | some (finalOp, _) =>
    match finalOp.video.bind VideoRef.uri with
    | none => Outcome.throws GenError.noVideoUri
    | some uri =>
      if uri = "" then Outcome.throws GenError.noVideoUri
      else
        match backend.fetch uri with
        | none => Outcome.throws (GenError.transport "fetch failed")
        | some blob =>
          Outcome.returns { objectUrl := createObjectURL blob, blob := blob, video := finalOp.video }

/-- `generateVideo` (src/services/geminiService.ts): every call builds and
submits exactly one generateVideos request (there is no validation step),
then runs the poll-fetch lifecycle against the backend.  The pair records
the submitted request alongside the outcome. -/
def generateVideo (params : GenerateVideoParams) (backend : Backend) :
    GenerateVideosRequest × Outcome GenResult :=
  (buildRequest params, runGeneration backend)

/-- A Scene (src/types): a generated clip on the timeline. -/
structure Scene where
  id : String
  videoUrl : String
  videoBlob : String
  videoObject : Option VideoRef
  prompt : String
  timestamp : Nat
deriving Repr, DecidableEq

/-- The lifecycle phase of the application (AppState in src/types). -/
inductive AppPhase where
  | idle
  | loading
  | success
  | error
deriving Repr, DecidableEq

/-- The slice of App component state touched by handleGenerate and the
timeline handlers (src/App.tsx). -/
structure AppSt where
  appState : AppPhase
  scenes : List Scene
  selectedSceneId : Option String
  selectedAssetIds : List String
  externalPrompt : Option String
  initialFormValues : Option GenerateVideoParams
  isPromptBarCollapsed : Bool
  showApiKeyDialog : Bool
deriving Repr, DecidableEq

/-- `handleGenerate` (src/App.tsx): after the key check (keyOk collapses
the window.aistudio availability and key-selection check), unconditionally
enter the loading phase, clear the carried-over form state, collapse the
prompt bar, and await generateVideo; on success append the new Scene,
select it and clear the asset selection; on a thrown error set the error
phase; a diverging call leaves the state parked in loading.  The returned
flag records whether a generateVideos submission was issued.  The handler
never consults the current phase: nothing rejects or queues a submission
that starts while another is pending. -/
def handleGenerate (keyOk : Bool) (params : GenerateVideoParams) (backend : Backend)
    (newId : String) (now : Nat) (st : AppSt) : AppSt × Bool :=
  if keyOk then
    let st1 : AppSt :=
      { st with
        appState := AppPhase.loading
        externalPrompt := none
        initialFormValues := none
        isPromptBarCollapsed := true }
    match (generateVideo params backend).2 with
    | Outcome.returns r =>
      let newScene : Scene :=
        { id := newId
          videoUrl := r.objectUrl
          videoBlob := r.blob
          videoObject := r.video
          prompt := params.prompt
          timestamp := now }
      ({ st1 with
          scenes := st1.scenes ++ [newScene]
          selectedSceneId := some newId
          appState := AppPhase.success
          selectedAssetIds := [] }, true)
    | Outcome.throws _ => ({ st1 with appState := AppPhase.error }, true)
    | Outcome.diverges => (st1, true)
  else
    ({ st with showApiKeyDialog := true }, false)

/-- The onDeleteScene handler of the Timeline wiring (src/App.tsx): drop
the scene with the given id from the list, and clear the selection when it
was the deleted scene. -/
def onDeleteScene (id : String) (scenes : List Scene) (selectedSceneId : Option String) :
    List Scene × Option String :=
  (scenes.filter fun s => s.id ≠ id,
   if selectedSceneId = some id then none else selectedSceneId)

/-! ## Theorems settling the claims -/

/-- C8: the storyboard describer buckets an item's position with thresholds
x below 150 left, x above 300 right, otherwise center, and y below 150
background/top, otherwise foreground/bottom, and yields the phrase
"assetPrompt (note) located hPos and vPos"; an item at x=100,y=100 buckets
to on the left / in the background/top, x=350,y=400 to on the right / in
the foreground/bottom, and x=200,y=200 to in the center / in the
foreground/bottom. -/
theorem storyboard_position_buckets (p n : String) (x y : Int) :
    describeStoryboardItem ⟨p, n, x, y⟩ =
        p ++ " (" ++ n ++ ") located "
          ++ (if x < 150 then "on the left" else if x > 300 then "on the right" else "in the center")
          ++ " and "
          ++ (if y < 150 then "in the background/top" else "in the foreground/bottom")
    ∧ describeStoryboardItem ⟨"A knight", "hero", 100, 100⟩ =
        "A knight (hero) located on the left and in the background/top"
    ∧ describeStoryboardItem ⟨"A knight", "hero", 350, 400⟩ =
        "A knight (hero) located on the right and in the foreground/bottom"
    ∧ describeStoryboardItem ⟨"A knight", "hero", 200, 200⟩ =
        "A knight (hero) located in the center and in the foreground/bottom" := by
  refine ⟨rfl, ?_, ?_, ?_⟩ <;> rfl

/-- C10: generateScoreMetadata returns its documented fallback exactly on a
JSON parse failure; an absent or empty response text defaults to the empty
object literal, which parses successfully to an empty object carrying none
of the documented score fields, so the fallback is not used there. -/
theorem score_metadata_fallback (mood : String) (responseText : Option String) :
    (Json.parse (respTextOrBraces responseText) = none →
      generateScoreMetadata mood responseText = scoreFallbackJson mood)
  ∧ (∀ j, Json.parse (respTextOrBraces responseText) = some j →
      generateScoreMetadata mood responseText = j)
  ∧ scoreFallbackJson mood =
      Json.obj [("title", Json.str "Untitled Score"), ("description", Json.str mood),
                ("bpm", Json.str "120"), ("instruments", Json.arr [Json.str "Synth", Json.str "Strings"])]
  ∧ respTextOrBraces none = "{}"
  ∧ respTextOrBraces (some "") = "{}"
  ∧ Json.parse "{}" = some (Json.obj [])
  ∧ generateScoreMetadata mood none = Json.obj []
  ∧ generateScoreMetadata mood (some "") = Json.obj []
  ∧ Json.hasField (generateScoreMetadata mood none) "title" = false
  ∧ Json.hasField (generateScoreMetadata mood none) "description" = false
  ∧ Json.hasField (generateScoreMetadata mood none) "bpm" = false
  ∧ Json.hasField (generateScoreMetadata mood none) "instruments" = false
  ∧ generateScoreMetadata mood none ≠ scoreFallbackJson mood := by
  refine ⟨?_, ?_, rfl, rfl, rfl, rfl, rfl, rfl, rfl, rfl, rfl, rfl, ?_⟩
  · intro h
    simp [generateScoreMetadata, h]
  · intro j h
    simp [generateScoreMetadata, h]
  · intro h
    exact absurd (Json.obj.inj h) (by simp)

/-- C10 witness: a concrete non-JSON response takes the fallback branch. -/
theorem score_metadata_fallback_witness :
    generateScoreMetadata "brooding" (some "static noise") = scoreFallbackJson "brooding" :=
  (score_metadata_fallback "brooding" (some "static noise")).1 rfl

/-- C5 counterexample: the backend response text consisting of the empty
JSON object literal parses successfully, and chatWithDirector returns the
parsed empty object unchanged, which is not a well-formed director action
of any of the four kinds. -/
theorem director_action_not_validated :
    chatWithDirector (some "{}") = Json.obj []
  ∧ isDirectorAction (chatWithDirector (some "{}")) = false := ⟨rfl, rfl⟩

/-- C5 (amended): chatWithDirector is total (models that the try/catch lets
no exception escape); whenever the cleaned response text fails to parse as
JSON, it returns the CHAT_RESPONSE fallback action, whose payload text is
non-empty; on a successful parse it returns the parsed value unvalidated,
so the result need not be one of the four action kinds.  In particular the
literal response "not valid json" yields the fallback. -/
theorem director_fallback_on_parse_failure (responseText : Option String) :
    (Json.parse (cleanResponse responseText) = none →
      chatWithDirector responseText = directorFallback)
  ∧ (∀ j, Json.parse (cleanResponse responseText) = some j →
      chatWithDirector responseText = j)
  ∧ isDirectorAction directorFallback = true
  ∧ Json.getField directorFallback "type" = some (Json.str "CHAT_RESPONSE")
  ∧ Json.getField directorFallback "payload" =
      some (Json.obj [("text", Json.str "I'm having trouble processing that request right now.")])
  ∧ "I'm having trouble processing that request right now." ≠ ""
  ∧ chatWithDirector (some "not valid json") = directorFallback := by
  refine ⟨?_, ?_, rfl, rfl, rfl, by decide, rfl⟩
  · intro h
    simp [chatWithDirector, h]
  · intro j h
    simp [chatWithDirector, h]

/-- C5 witness: the theorem applied at the concrete unparsable response. -/
theorem director_fallback_witness :
    chatWithDirector (some "not valid json") = directorFallback :=
  (director_fallback_on_parse_failure (some "not valid json")).1 rfl

/-- C2: the composed final prompt is exactly the style fragment (when a
style is selected, space-separated before the user text), then the user
text, then the continuity sentences for the locked assets, then the
lighting sentence when a lighting lock is set; with no style, no locked
assets and no lighting lock the result is the user text unchanged; and the
user text always appears in the result intact between a prefix and a
suffix. -/
theorem prompt_composition_order (p : String) (sty : Option FilmStyle)
    (assets : List Asset) (c : ContinuityProfile) :
    composeFinalPrompt p sty assets c
      = styleFragment sty ++ p ++ assetsFragment assets c ++ lightingFragment c
  ∧ (sty = none →
      assets.filter (fun a => c.activeAssetIds.contains a.id) = [] →
      c.lightingLock = none →
      composeFinalPrompt p sty assets c = p)
  ∧ (∃ pre post, composeFinalPrompt p sty assets c = pre ++ p ++ post) := by
  have hmain : composeFinalPrompt p sty assets c
      = styleFragment sty ++ p ++ assetsFragment assets c ++ lightingFragment c := by
    simp only [composeFinalPrompt, styleFragment, assetsFragment, lightingFragment]
    cases sty with
    | none =>
      cases c.lightingLock with
      | none =>
        by_cases hn : 0 < (assets.filter fun a => c.activeAssetIds.contains a.id).length
        · simp only [if_pos hn, String.empty_append, String.append_empty, String.append_assoc]
        · simp only [if_neg hn, String.empty_append, String.append_empty, String.append_assoc]
      | some l =>
        by_cases hl0 : l = ""
        · subst hl0
          by_cases hn : 0 < (assets.filter fun a => c.activeAssetIds.contains a.id).length
          · simp only [if_pos hn, if_pos rfl, String.empty_append, String.append_empty,
              String.append_assoc]
            simp [String.append_assoc, String.empty_append, String.append_empty]
          · simp only [if_neg hn, if_pos rfl, String.empty_append, String.append_empty,
              String.append_assoc]
            simp [String.append_assoc, String.empty_append, String.append_empty]
        · by_cases hn : 0 < (assets.filter fun a => c.activeAssetIds.contains a.id).length
          · simp only [if_pos hn, if_neg hl0, String.empty_append, String.append_empty,
              String.append_assoc]
          · simp only [if_neg hn, if_neg hl0, String.empty_append, String.append_empty,
              String.append_assoc]
    | some st =>
      cases c.lightingLock with
      | none =>
        by_cases hn : 0 < (assets.filter fun a => c.activeAssetIds.contains a.id).length
        · simp only [if_pos hn, String.empty_append, String.append_empty, String.append_assoc]
        · simp only [if_neg hn, String.empty_append, String.append_empty, String.append_assoc]
      | some l =>
        by_cases hl0 : l = ""
        · subst hl0
          by_cases hn : 0 < (assets.filter fun a => c.activeAssetIds.contains a.id).length
          · simp only [if_pos hn, if_pos rfl, String.empty_append, String.append_empty,
              String.append_assoc]
            simp [String.append_assoc, String.empty_append, String.append_empty]
          · simp only [if_neg hn, if_pos rfl, String.empty_append, String.append_empty,
              String.append_assoc]
            simp [String.append_assoc, String.empty_append, String.append_empty]
        · by_cases hn : 0 < (assets.filter fun a => c.activeAssetIds.contains a.id).length
          · simp only [if_pos hn, if_neg hl0, String.empty_append, String.append_empty,
              String.append_assoc]
          · simp only [if_neg hn, if_neg hl0, String.empty_append, String.append_empty,
              String.append_assoc]
  refine ⟨hmain, ?_, ?_⟩
  · intro h1 h2 h3
    subst h1
    simp only [composeFinalPrompt]
    rw [h2, h3]
    simp
  · exact ⟨styleFragment sty, assetsFragment assets c ++ lightingFragment c, by
      rw [hmain, String.append_assoc, String.append_assoc]⟩

/-- C2 witness: with no style, no locked assets and no lighting lock the
composition returns the user text unchanged. -/
theorem prompt_composition_witness :
    composeFinalPrompt "a cat walks" none [] ⟨[], none⟩ = "a cat walks" :=
  (prompt_composition_order "a cat walks" none [] ⟨[], none⟩).2.1 rfl rfl rfl

/-- C3: against a backend whose submission returns a pending operation and
whose status checks then report not-done, not-done, done with a valid
(non-falsy, hence non-empty) media reference, the poll loop performs
exactly three status checks, each preceded by the full 5000 ms sleep
(consecutive checks are separated by the poll interval, never
back-to-back), and generateVideo returns a populated result — object URL,
payload, and backend video reference — from which handleGenerate appends
a Scene. -/
theorem poll_three_checks_then_scene (uri blob : String) (params : GenerateVideoParams)
    (newId : String) (now : Nat) (st : AppSt) (huri : uri ≠ "") :
    let pending : Operation := { done := false, video := none }
    let doneOp : Operation := { done := true, video := some { uri := some uri } }
    let b : Backend :=
      { initial := pending, polls := [pending, pending, doneOp], fetch := fun _ => some blob }
    pollLoop b.initial b.polls = some (doneOp, 3)
  ∧ pollTrace b.initial b.polls =
      some [PollEvent.sleep 5000, PollEvent.check, PollEvent.sleep 5000, PollEvent.check,
            PollEvent.sleep 5000, PollEvent.check]
  ∧ (generateVideo params b).2 =
      Outcome.returns { objectUrl := "blob:" ++ blob, blob := blob, video := some { uri := some uri } }
  ∧ (handleGenerate true params b newId now st).1.scenes =
      st.scenes ++ [{ id := newId, videoUrl := "blob:" ++ blob, videoBlob := blob,
                      videoObject := some { uri := some uri }, prompt := params.prompt,
                      timestamp := now }]
  ∧ (handleGenerate true params b newId now st).1.appState = AppPhase.success := by
  intro pending doneOp b
  have h3 : (generateVideo params b).2 =
      Outcome.returns { objectUrl := "blob:" ++ blob, blob := blob, video := some { uri := some uri } } :=
    if_neg huri
  refine ⟨rfl, rfl, h3, ?_, ?_⟩
  · simp [handleGenerate, h3]
  · simp [handleGenerate, h3]

/-- C3 witness: a concrete backend reporting not-done twice and then done
with a concrete non-empty URI makes exactly three checks and appends the
scene with the success phase. -/
theorem poll_three_checks_then_scene_witness :
    pollLoop { done := false, video := none }
        [{ done := false, video := none }, { done := false, video := none },
         { done := true, video := some { uri := some "https://v" } }]
      = some ({ done := true, video := some { uri := some "https://v" } }, 3)
  ∧ (handleGenerate true
        { prompt := "dawn chase", model := "", aspect := "16:9", resolution := "720p",
          mode := "Text to Video", startFrame := none, endFrame := none, referenceImages := [],
          inputVideo := none, inputVideoObject := none, isLooping := false }
        { initial := { done := false, video := none }
          polls := [{ done := false, video := none }, { done := false, video := none },
                    { done := true, video := some { uri := some "https://v" } }]
          fetch := fun _ => some "clip3" }
        "s3" 9
        { appState := AppPhase.idle, scenes := [], selectedSceneId := none, selectedAssetIds := [],
          externalPrompt := none, initialFormValues := none, isPromptBarCollapsed := false,
          showApiKeyDialog := false }).1.appState = AppPhase.success := by
  have h := poll_three_checks_then_scene "https://v" "clip3"
    { prompt := "dawn chase", model := "", aspect := "16:9", resolution := "720p",
      mode := "Text to Video", startFrame := none, endFrame := none, referenceImages := [],
      inputVideo := none, inputVideoObject := none, isLooping := false }
    "s3" 9
    { appState := AppPhase.idle, scenes := [], selectedSceneId := none, selectedAssetIds := [],
      externalPrompt := none, initialFormValues := none, isPromptBarCollapsed := false,
      showApiKeyDialog := false }
    (by decide)
  exact ⟨h.1, h.2.2.2.2⟩

/-- C4: when the backend operation completes but carries no media
reference, generateVideo throws the empty-result error (a constructor
distinct from every transport error), handleGenerate sets the error phase,
and the scene list is unchanged. -/
theorem empty_result_is_hard_error (params : GenerateVideoParams) (b : Backend)
    (newId : String) (now : Nat) (st : AppSt) (op : Operation) (n : Nat)
    (hpoll : pollLoop b.initial b.polls = some (op, n))
    (huri : op.video.bind VideoRef.uri = none) :
    (generateVideo params b).2 = Outcome.throws GenError.noVideoUri
  ∧ (∀ msg, GenError.noVideoUri ≠ GenError.transport msg)
  ∧ (handleGenerate true params b newId now st).1.appState = AppPhase.error
  ∧ (handleGenerate true params b newId now st).1.scenes = st.scenes := by
  have hg : (generateVideo params b).2 = Outcome.throws GenError.noVideoUri := by
    simp [generateVideo, runGeneration, hpoll, huri]
  refine ⟨hg, fun msg hmsg => GenError.noConfusion hmsg, ?_, ?_⟩
  · simp [handleGenerate, hg]
  · simp [handleGenerate, hg]

/-- C4 witness: a concrete done-with-no-media backend produces the error
phase with no new scene. -/
theorem empty_result_is_hard_error_witness :
    (handleGenerate true
        { prompt := "p", model := "", aspect := "16:9", resolution := "720p",
          mode := "Text to Video", startFrame := none, endFrame := none,
          referenceImages := [], inputVideo := none, inputVideoObject := none, isLooping := false }
        { initial := { done := true, video := none }, polls := [], fetch := fun _ => none }
        "s1" 0
        { appState := AppPhase.idle, scenes := [], selectedSceneId := none, selectedAssetIds := [],
          externalPrompt := none, initialFormValues := none, isPromptBarCollapsed := false,
          showApiKeyDialog := false }).1.appState = AppPhase.error ∧
    (handleGenerate true
        { prompt := "p", model := "", aspect := "16:9", resolution := "720p",
          mode := "Text to Video", startFrame := none, endFrame := none,
          referenceImages := [], inputVideo := none, inputVideoObject := none, isLooping := false }
        { initial := { done := true, video := none }, polls := [], fetch := fun _ => none }
        "s1" 0
        { appState := AppPhase.idle, scenes := [], selectedSceneId := none, selectedAssetIds := [],
          externalPrompt := none, initialFormValues := none, isPromptBarCollapsed := false,
          showApiKeyDialog := false }).1.scenes = [] :=
  ⟨(empty_result_is_hard_error
      { prompt := "p", model := "", aspect := "16:9", resolution := "720p",
        mode := "Text to Video", startFrame := none, endFrame := none,
        referenceImages := [], inputVideo := none, inputVideoObject := none, isLooping := false }
      { initial := { done := true, video := none }, polls := [], fetch := fun _ => none }
      "s1" 0
      { appState := AppPhase.idle, scenes := [], selectedSceneId := none, selectedAssetIds := [],
        externalPrompt := none, initialFormValues := none, isPromptBarCollapsed := false,
        showApiKeyDialog := false }
      { done := true, video := none } 0 rfl rfl).2.2.1,
   (empty_result_is_hard_error
      { prompt := "p", model := "", aspect := "16:9", resolution := "720p",
        mode := "Text to Video", startFrame := none, endFrame := none,
        referenceImages := [], inputVideo := none, inputVideoObject := none, isLooping := false }
      { initial := { done := true, video := none }, polls := [], fetch := fun _ => none }
      "s1" 0
      { appState := AppPhase.idle, scenes := [], selectedSceneId := none, selectedAssetIds := [],
        externalPrompt := none, initialFormValues := none, isPromptBarCollapsed := false,
        showApiKeyDialog := false }
      { done := true, video := none } 0 rfl rfl).2.2.2⟩

/-- C7: every references-to-video submission with at least one reference
image is sent with the forced defaults — the standard model, 16:9 aspect
ratio and 720p resolution — regardless of the user's selections, carrying
the reference images as ASSET references. -/
theorem references_mode_forced_defaults (params : GenerateVideoParams)
    (hm : params.mode = "References to Video")
    (hr : params.referenceImages ≠ []) :
    (buildRequest params).model = "veo-3.1-generate-preview"
  ∧ (buildRequest params).aspect = some "16:9"
  ∧ (buildRequest params).resolution = some "720p"
  ∧ (buildRequest params).referenceImages
      = some (params.referenceImages.map fun img =>
          { imageBytes := img.base64, mimeType := img.mimeType, referenceType := "ASSET" }) := by
  have hx : ¬(params.mode = "Extend Video" ∧ params.inputVideoObject.isSome) := by
    intro h
    rw [hm] at h
    exact absurd h.1 (by decide)
  have hlen : 0 < params.referenceImages.length := List.length_pos.mpr hr
  unfold buildRequest
  rw [if_neg hx, if_pos ⟨hm, hlen⟩]
  exact ⟨rfl, rfl, rfl, rfl⟩

/-- C7 witness: a request with the fast model, portrait aspect and 1080p
selected by the user is still sent with the forced defaults. -/
theorem references_mode_forced_defaults_witness :
    (buildRequest
      { prompt := "hero shot", model := "veo-3.1-fast-generate-preview", aspect := "9:16",
        resolution := "1080p", mode := "References to Video", startFrame := none, endFrame := none,
        referenceImages := [{ base64 := "QUJD", mimeType := "image/png" }],
        inputVideo := none, inputVideoObject := none, isLooping := false }).model
      = "veo-3.1-generate-preview"
  ∧ (buildRequest
      { prompt := "hero shot", model := "veo-3.1-fast-generate-preview", aspect := "9:16",
        resolution := "1080p", mode := "References to Video", startFrame := none, endFrame := none,
        referenceImages := [{ base64 := "QUJD", mimeType := "image/png" }],
        inputVideo := none, inputVideoObject := none, isLooping := false }).aspect = some "16:9"
  ∧ (buildRequest
      { prompt := "hero shot", model := "veo-3.1-fast-generate-preview", aspect := "9:16",
        resolution := "1080p", mode := "References to Video", startFrame := none, endFrame := none,
        referenceImages := [{ base64 := "QUJD", mimeType := "image/png" }],
        inputVideo := none, inputVideoObject := none, isLooping := false }).resolution
      = some "720p" := by
  have h := references_mode_forced_defaults
    { prompt := "hero shot", model := "veo-3.1-fast-generate-preview", aspect := "9:16",
      resolution := "1080p", mode := "References to Video", startFrame := none, endFrame := none,
      referenceImages := [{ base64 := "QUJD", mimeType := "image/png" }],
      inputVideo := none, inputVideoObject := none, isLooping := false }
    rfl (by simp)
  exact ⟨h.1, h.2.1, h.2.2.1⟩

/-- The references-to-video parameters with an empty reference list used to
settle C1. -/
def refsEmptyParams : GenerateVideoParams :=
  { prompt := "hello", model := "veo-3.1-fast-generate-preview", aspect := "9:16",
    resolution := "1080p", mode := "References to Video", startFrame := none, endFrame := none,
    referenceImages := [], inputVideo := none, inputVideoObject := none, isLooping := false }

/-- C1 counterexample: with references-to-video mode and an empty
reference-image list, generateVideo does not fail validation before
submission: it issues a standard-variant generateVideos request built from
the user's own settings, and with a successful backend the call returns
normally. -/
theorem references_empty_not_validated :
    (generateVideo refsEmptyParams
        { initial := { done := true, video := some { uri := some "u" } }, polls := [],
          fetch := fun _ => some "vid" }).1
      = { model := "veo-3.1-fast-generate-preview", prompt := "hello", image := none,
          video := none, referenceImages := none, numberOfVideos := 1,
          resolution := some "1080p", aspect := some "9:16" }
  ∧ (generateVideo refsEmptyParams
        { initial := { done := true, video := some { uri := some "u" } }, polls := [],
          fetch := fun _ => some "vid" }).2
      = Outcome.returns { objectUrl := "blob:vid", blob := "vid", video := some { uri := some "u" } } :=
  ⟨rfl, rfl⟩

/-- C1 (amended): a references-to-video call with an empty reference-image
list is not validated and is not stopped before submission: the references
branch is skipped and a standard-generation generateVideos request is
issued, built from the user's own model (defaulted when falsy), start
frame, resolution and aspect selections, with no reference images
attached. -/
theorem references_empty_falls_through (params : GenerateVideoParams) (b : Backend)
    (hm : params.mode = "References to Video")
    (hr : params.referenceImages = []) :
    (generateVideo params b).1
      = { model := if params.model = "" then "veo-3.1-fast-generate-preview" else params.model,
          prompt := params.prompt, image := params.startFrame, video := none,
          referenceImages := none, numberOfVideos := 1,
          resolution := some params.resolution, aspect := some params.aspect } := by
  have hx : ¬(params.mode = "Extend Video" ∧ params.inputVideoObject.isSome) := by
    intro h
    rw [hm] at h
    exact absurd h.1 (by decide)
  have hx2 : ¬(params.mode = "References to Video" ∧ 0 < params.referenceImages.length) := by
    intro h
    rw [hr] at h
    exact absurd h.2 (by decide)
  have hfst : (generateVideo params b).1 = buildRequest params := rfl
  rw [hfst]
  unfold buildRequest
  rw [if_neg hx, if_neg hx2]

/-- C1 witness for the amended claim: the concrete empty-reference call
yields the standard-variant request. -/
theorem references_empty_falls_through_witness :
    (generateVideo refsEmptyParams
        { initial := { done := true, video := none }, polls := [], fetch := fun _ => none }).1
      = { model := "veo-3.1-fast-generate-preview", prompt := "hello", image := none,
          video := none, referenceImages := none, numberOfVideos := 1,
          resolution := some "1080p", aspect := some "9:16" } :=
  references_empty_falls_through refsEmptyParams
    { initial := { done := true, video := none }, polls := [], fetch := fun _ => none } rfl rfl

/-- C6 counterexample: from a reachable mid-flight state (lifecycle phase
loading), a second top-level submission is neither rejected nor queued:
handleGenerate issues its request and immediately updates the shared
state, appending its scene and setting the phase to success. -/
theorem second_submission_not_rejected :
    (handleGenerate true
        { prompt := "second", model := "", aspect := "16:9", resolution := "720p",
          mode := "Text to Video", startFrame := none, endFrame := none, referenceImages := [],
          inputVideo := none, inputVideoObject := none, isLooping := false }
        { initial := { done := true, video := some { uri := some "u2" } }, polls := [],
          fetch := fun _ => some "clip2" }
        "scene-2" 7
        { appState := AppPhase.loading, scenes := [], selectedSceneId := none,
          selectedAssetIds := [], externalPrompt := none, initialFormValues := none,
          isPromptBarCollapsed := true, showApiKeyDialog := false }).2 = true
  ∧ (handleGenerate true
        { prompt := "second", model := "", aspect := "16:9", resolution := "720p",
          mode := "Text to Video", startFrame := none, endFrame := none, referenceImages := [],
          inputVideo := none, inputVideoObject := none, isLooping := false }
        { initial := { done := true, video := some { uri := some "u2" } }, polls := [],
          fetch := fun _ => some "clip2" }
        "scene-2" 7
        { appState := AppPhase.loading, scenes := [], selectedSceneId := none,
          selectedAssetIds := [], externalPrompt := none, initialFormValues := none,
          isPromptBarCollapsed := true, showApiKeyDialog := false }).1.scenes
      = [{ id := "scene-2", videoUrl := "blob:clip2", videoBlob := "clip2",
           videoObject := some { uri := some "u2" }, prompt := "second", timestamp := 7 }]
  ∧ (handleGenerate true
        { prompt := "second", model := "", aspect := "16:9", resolution := "720p",
          mode := "Text to Video", startFrame := none, endFrame := none, referenceImages := [],
          inputVideo := none, inputVideoObject := none, isLooping := false }
        { initial := { done := true, video := some { uri := some "u2" } }, polls := [],
          fetch := fun _ => some "clip2" }
        "scene-2" 7
        { appState := AppPhase.loading, scenes := [], selectedSceneId := none,
          selectedAssetIds := [], externalPrompt := none, initialFormValues := none,
          isPromptBarCollapsed := true, showApiKeyDialog := false }).1.appState
      = AppPhase.success :=
  ⟨rfl, rfl, rfl⟩

/-- C6 (amended): the caller installs no in-flight guard: handleGenerate
never consults the current lifecycle phase, so a submission started while
another is pending is processed exactly as one started when idle — its
request is issued (never rejected or queued) and its completion updates
the shared scene list and phase. -/
theorem handleGenerate_ignores_pending_phase (params : GenerateVideoParams) (b : Backend)
    (newId : String) (now : Nat) (st : AppSt) (ph : AppPhase) :
    (handleGenerate true params b newId now st).2 = true
  ∧ handleGenerate true params b newId now { st with appState := ph }
      = handleGenerate true params b newId now st := by
  constructor
  · unfold handleGenerate
    cases hv : (generateVideo params b).2 <;> simp [hv]
  · unfold handleGenerate
    cases hv : (generateVideo params b).2 <;> simp [hv]

/-- Deleting by id from a list of scenes with pairwise-distinct ids removes
exactly one element when a scene with that id is present. -/
theorem filter_ne_id_length (l : List Scene) (id : String)
    (hnd : (l.map Scene.id).Nodup) (s : Scene) (hs : s ∈ l) (hid : s.id = id) :
    (l.filter fun t => t.id ≠ id).length + 1 = l.length := by
  induction l with
  | nil => cases hs
  | cons hd tl ih =>
    rw [List.map_cons, List.nodup_cons] at hnd
    rcases List.mem_cons.mp hs with h1 | h1
    · subst h1
      have hfil : List.filter (fun t => decide (t.id ≠ id)) tl = tl := by
        rw [List.filter_eq_self]
        intro t ht
        simp only [decide_eq_true_eq]
        intro h
        exact hnd.1 (by rw [hid, ← h]; exact List.mem_map_of_mem Scene.id ht)
      have hcond : decide (s.id ≠ id) = false := by simp [hid]
      simp only [List.filter_cons, hcond, Bool.false_eq_true, if_false, hfil, List.length_cons]
    · have hne : hd.id ≠ id := by
        intro h
        exact hnd.1 (by rw [h, ← hid]; exact List.mem_map_of_mem Scene.id h1)
      have hcond : decide (hd.id ≠ id) = true := by simp [hne]
      have ih2 := ih hnd.2 h1
      simp only [List.filter_cons, hcond, if_true, List.length_cons]
      omega

/-- C9: deleting the currently selected scene removes it and clears the
selection; deleting a non-selected scene removes it and leaves the
selection unchanged; the resulting selection never refers to the deleted
scene; and with pairwise-distinct scene ids exactly the one scene carrying
the deleted id is removed. -/
theorem delete_scene_selection (scenes : List Scene) (sel : Option String) (id : String)
    (hnd : (scenes.map Scene.id).Nodup) :
    (∀ s, s ∈ (onDeleteScene id scenes sel).1 ↔ (s ∈ scenes ∧ s.id ≠ id))
  ∧ (sel = some id → (onDeleteScene id scenes sel).2 = none)
  ∧ (sel ≠ some id → (onDeleteScene id scenes sel).2 = sel)
  ∧ (onDeleteScene id scenes sel).2 ≠ some id
  ∧ (∀ s, s ∈ scenes → s.id = id → (onDeleteScene id scenes sel).1.length + 1 = scenes.length) := by
  refine ⟨?_, ?_, ?_, ?_, ?_⟩
  · intro s
    simp [onDeleteScene, List.mem_filter]
  · intro h
    simp [onDeleteScene, h]
  · intro h
    simp [onDeleteScene, h]
  · by_cases h : sel = some id
    · simp [onDeleteScene, h]
    · simp [onDeleteScene, h]
  · intro s hs hid
    exact filter_ne_id_length scenes id hnd s hs hid

/-- C9 witness: deleting the selected of two distinct scenes clears the
selection, while deleting the non-selected one keeps it. -/
theorem delete_scene_selection_witness :
    (onDeleteScene "a"
      [{ id := "a", videoUrl := "u1", videoBlob := "b1", videoObject := none, prompt := "p1", timestamp := 1 },
       { id := "b", videoUrl := "u2", videoBlob := "b2", videoObject := none, prompt := "p2", timestamp := 2 }]
      (some "a")).2 = none
  ∧ (onDeleteScene "b"
      [{ id := "a", videoUrl := "u1", videoBlob := "b1", videoObject := none, prompt := "p1", timestamp := 1 },
       { id := "b", videoUrl := "u2", videoBlob := "b2", videoObject := none, prompt := "p2", timestamp := 2 }]
      (some "a")).2 = some "a" :=
  ⟨(delete_scene_selection
      [{ id := "a", videoUrl := "u1", videoBlob := "b1", videoObject := none, prompt := "p1", timestamp := 1 },
       { id := "b", videoUrl := "u2", videoBlob := "b2", videoObject := none, prompt := "p2", timestamp := 2 }]
      (some "a") "a" (by decide)).2.1 rfl,
   (delete_scene_selection
      [{ id := "a", videoUrl := "u1", videoBlob := "b1", videoObject := none, prompt := "p1", timestamp := 1 },
       { id := "b", videoUrl := "u2", videoBlob := "b2", videoObject := none, prompt := "p2", timestamp := 2 }]
      (some "a") "b" (by decide)).2.2.1 (by decide)⟩

end UnicornFilms
